import Mathlib

/-!
Shallow embedding of the "Prettig Thuis" quest scheduler and image-generation
pipeline, together with theorems checking the specification claims.

Scheduler: models `getPartOfDay` / `getNextQuest` from the App component.
Time (`Date.now()`, ledger timestamps) is modelled as `Int` milliseconds; the
single call to `Math.random()` used to index the filtered quest list is
exposed as an explicit `randIndex : Nat` parameter (the code computes
`Math.floor(Math.random() * len)`, always below `len`; an out-of-range index
yields `undefined`, modelled by `Option`).

Generation pipeline: models `geminiService.ts`.  The repository carries two
copies of the service.  The first copy (`processGeminiResponse` with a typed
`GeminiError`, a SAFETY finish-reason rule, and no second-tier attempt) and
the second copy (`processGeminiResponseV2` with plain string errors, no
safety rule, and the two-tier `generateActivityStrip` orchestration).  The
network is modelled by an oracle `Nat → Except String GenResponse` giving the
outcome of each `generateContent` attempt; thrown JavaScript errors are
modelled by their `message` string, which is all the code ever inspects.
-/

set_option autoImplicit false

deriving instance DecidableEq for Except

namespace PrettigThuis

/-- A quest record, as used by the App component and `lib/quests.ts`: only the
fields the scheduler reads are semantically relevant; the rest are carried
verbatim. -/
structure Quest where
  quest_id : String
  title : String
  description : String
  icf_codes : List String
  category : String
  difficulty : String
  cooldown_minutes : Nat
  tags : List String
  deriving Repr, DecidableEq

/-- The completion ledger `completedQuests : Record<string, number>`:
quest id to last-completion timestamp (ms). -/
def Ledger : Type := String → Option Int

/-- `getPartOfDay` from the App component: maps the wall-clock hour to a
daypart string.  The final branch covers night and early morning. -/
def getPartOfDay (hour : Nat) : String :=
  if 5 ≤ hour ∧ hour < 12 then "morning"
  else if 12 ≤ hour ∧ hour < 17 then "midday"
  else if 17 ≤ hour ∧ hour < 21 then "afternoon"
  else "evening"

/-- The on-cooldown test from `getNextQuest`:
`(completedQuests[quest.quest_id] || 0) + quest.cooldown_minutes * 60000 > now`. -/
def isOnCooldown (ledger : Ledger) (now : Int) (q : Quest) : Bool :=
  decide (((ledger q.quest_id).getD 0) + (q.cooldown_minutes : Int) * 60000 > now)

/-- The `availableQuests` local of `getNextQuest`: quests matching the current
daypart (or tagged "anytime") and not on cooldown. -/
def availableQuests (catalog : List Quest) (ledger : Ledger) (now : Int) (hour : Nat) :
    List Quest :=
  catalog.filter (fun quest =>
    (quest.tags.contains (getPartOfDay hour) || quest.tags.contains "anytime")
      && !(isOnCooldown ledger now quest))

/-- `getNextQuest` from the App component.  `randIndex` stands for the value
`Math.floor(Math.random() * availableQuests.length)` used to index the
filtered list; when the filtered list is empty the code falls back to the
first catalog-order quest that is off cooldown, and to `null` if none is. -/
def getNextQuest (catalog : List Quest) (ledger : Ledger) (now : Int) (hour : Nat)
    (randIndex : Nat) : Option Quest :=
  let avail := availableQuests catalog ledger now hour
  if avail.length = 0 then
    catalog.find? (fun q => !(isOnCooldown ledger now q))
  else
    avail.get? randIndex

/-! ## Generation pipeline data model -/

/-- Inline image payload (`inlineData`) of a content part: mime type plus
base64 data, both kept verbatim. -/
structure InlineData where
  mimeType : String
  data : String
  deriving Repr, DecidableEq

/-- A content part of a request or response: optional inline image payload and
optional text. -/
structure RPart where
  inlineData : Option InlineData
  text : Option String
  deriving Repr, DecidableEq

/-- Candidate content: a list of parts. -/
structure Content where
  parts : List RPart
  deriving Repr, DecidableEq

/-- A response candidate: optional finish reason and optional content. -/
structure Candidate where
  finishReason : Option String
  content : Option Content
  deriving Repr, DecidableEq

/-- A raw provider response: candidate list (optional chaining over a missing
list is modelled by the empty list) plus the SDK `.text` accessor, `none`
when the accessor yields `undefined`. -/
structure GenResponse where
  candidates : List Candidate
  text : Option String
  deriving Repr, DecidableEq

/-- Whether the first character list starts the second. -/
def leadsWith : List Char → List Char → Bool
  | [], _ => true
  | _ :: _, [] => false
  | p :: ps, c :: cs => p = c && leadsWith ps cs

/-- Whether `pat` occurs as a contiguous run inside the character list. -/
def containsSubAux (pat : List Char) : List Char → Bool
  | [] => pat.isEmpty
  | c :: cs => leadsWith pat (c :: cs) || containsSubAux pat cs

/-- JavaScript `String.prototype.includes`: substring containment. -/
def containsSub (s pat : String) : Bool :=
  containsSubAux pat.toList s.toList

/-- The transient-failure sniff in `callGeminiWithRetry`:
`errorMessage.includes(...)` for the two internal-error markers. -/
def isInternalError (msg : String) : Bool :=
  containsSub msg "\"code\":500" || containsSub msg "INTERNAL"

/-- The `GeminiError` class of the first service copy: raw message plus a
user-facing message. -/
structure GeminiError where
  message : String
  userFriendlyMessage : String
  deriving Repr, DecidableEq

/-- User-facing message attached to a safety block (first service copy). -/
def safetyUserMessage : String :=
  "De beschrijving werd als ongepast gemarkeerd. Probeer het met andere woorden."

/-- User-facing message attached to a no-image result (first service copy). -/
def noImageUserMessage : String :=
  "Het is niet gelukt een afbeelding te maken. De AI gaf een onverwacht antwoord. Probeer een andere activiteit."

/-- Raw message of a no-image result: carries the response text, or the
placeholder when the text is missing or empty (JavaScript falsiness of ""). -/
def noImageRawMessage (textResponse : Option String) : String :=
  "The AI model responded with text instead of an image: \"" ++
    (match textResponse with
      | some t => if t = "" then "No text response received." else t
      | none => "No text response received.") ++ "\""

/-- `response.candidates?.[0]?.finishReason`. -/
def finishReason0 (r : GenResponse) : Option String :=
  r.candidates.head?.bind Candidate.finishReason

/-- `response.candidates?.[0]?.content?.parts?.find(part => part.inlineData)`,
projected to the inline payload. -/
def findImagePart (r : GenResponse) : Option InlineData :=
  ((r.candidates.head?.bind Candidate.content).map Content.parts).bind
    (fun parts => (parts.find? (fun p => p.inlineData.isSome)).bind RPart.inlineData)

/-- `processGeminiResponse` of the first service copy: SAFETY finish reason
first, then inline image extraction (mime and data used verbatim in the data
URL), else a typed no-image failure. -/
def processGeminiResponse (r : GenResponse) : Except GeminiError String :=
  if finishReason0 r = some "SAFETY" then
    .error ⟨"Generation failed due to safety reasons.", safetyUserMessage⟩
  else
    match findImagePart r with
    | some d => .ok ("data:" ++ d.mimeType ++ ";base64," ++ d.data)
    | none => .error ⟨noImageRawMessage r.text, noImageUserMessage⟩

/-- `processGeminiResponse` of the second service copy: no safety rule, plain
string errors. -/
def processGeminiResponseV2 (r : GenResponse) : Except String String :=
  match findImagePart r with
  | some d => .ok ("data:" ++ d.mimeType ++ ";base64," ++ d.data)
  | none => .error (noImageRawMessage r.text)

/-! ## The retrying client -/

/-- `maxRetries` constant of `callGeminiWithRetry`. -/
def maxRetries : Nat := 3

/-- `initialDelay` constant of `callGeminiWithRetry` (ms). -/
def initialDelay : Nat := 1000

/-- Outcome of one `generateContent` attempt: either a raw response or the
message of the thrown error. -/
def Oracle : Type := Nat → Except String GenResponse

/-- Observable trace of one `callGeminiWithRetry` run: final outcome, number
of attempts performed, and the backoff delays awaited between attempts. -/
structure RetryTrace where
  result : Except String GenResponse
  attempts : Nat
  delays : List Nat
  deriving Repr, DecidableEq

/-- The retry loop of `callGeminiWithRetry`, unrolled over remaining fuel
(the loop bound `maxRetries`); `attempt` is the 1-based loop counter.  Fuel
exhaustion corresponds to the unreachable final `throw` after the loop. -/
def retryFrom (oracle : Oracle) : Nat → Nat → RetryTrace
  | _, 0 => ⟨.error "Gemini API call failed after all retries.", 0, []⟩
  | attempt, fuel + 1 =>
    match oracle attempt with
    | .ok r => ⟨.ok r, 1, []⟩
    | .error msg =>
      if isInternalError msg = true ∧ attempt < maxRetries then
        let rest := retryFrom oracle (attempt + 1) fuel
        ⟨rest.result, rest.attempts + 1, initialDelay * 2 ^ (attempt - 1) :: rest.delays⟩
      else
        ⟨.error msg, 1, []⟩

/-- `callGeminiWithRetry`: at most `maxRetries` sequential attempts starting
at attempt 1. -/
def callGeminiWithRetry (oracle : Oracle) : RetryTrace :=
  retryFrom oracle 1 maxRetries

/-! ## Prompt building -/

/-- JavaScript `\w` (ASCII word character). -/
def isWordChar (c : Char) : Bool :=
  c.isAlpha || c.isDigit || c = '_'

/-- JavaScript line terminators, which `.` does not match. -/
def isLineTerminator (c : Char) : Bool :=
  c = '\n' || c = '\r' || c = '\u2028' || c = '\u2029'

/-- Strips a literal character sequence, returning the remainder. -/
def stripLit : List Char → List Char → Option (List Char)
  | [], cs => some cs
  | _ :: _, [] => none
  | p :: ps, c :: cs => if c = p then stripLit ps cs else none

/-- Semantics of the anchored match
`dataUrl.match(/^data:(image\/\w+);base64,(.*)$/)` from `createPart`:
returns the two captured groups (mime type including the `image/` part, and
the base64 payload) when the whole string matches. -/
def parseDataUrl (s : String) : Option (String × String) :=
  match stripLit "data:image/".toList s.toList with
  | none => none
  | some rest =>
    let w := rest.takeWhile isWordChar
    let rest2 := rest.dropWhile isWordChar
    if w = [] then none
    else
      match stripLit ";base64,".toList rest2 with
      | none => none
      | some payload =>
        if payload.any isLineTerminator then none
        else some (String.mk ("image/".toList ++ w), String.mk payload)

/-- `createPart` from `generateActivityStrip`: parses a data URL into an
inline-data part, failing with the malformed-image error otherwise. -/
def createPart (dataUrl : String) : Except String RPart :=
  match parseDataUrl dataUrl with
  | none => .error "Invalid image data URL format."
  | some (mimeType, data) => .ok ⟨some ⟨mimeType, data⟩, none⟩

/-- `getFallbackPrompt`. -/
def getFallbackPrompt (activity : String) : String :=
  "Show the person in the photo doing this: \"" ++ activity ++
    "\". Create a very simple 3-panel image that shows the steps. The style must be a clear and easy-to-understand drawing."

/-- The environment clause, added only when an environment image was given. -/
def environmentInstruction (hasEnv : Bool) : String :=
  if hasEnv then "Use the second photo as the background environment." else ""

/-- The primary prompt template of `generateActivityStrip`. -/
def primaryPrompt (activity : String) (hasEnv : Bool) : String :=
  "\n        You are an assistant creating a visual guide for a person with cognitive challenges.\n        Your task is to create a simple, clear, 3-panel comic strip showing the person from the first photo performing the activity: \"" ++
    activity ++ "\".\n        " ++ environmentInstruction hasEnv ++
    "\n        The style MUST be photorealistic, bright, and easy to understand.\n        Do not add any text, speech bubbles, or labels to the image.\n        The final output must be a single, wide image containing the 3 panels side-by-side.\n    "

/-- The Tier-1 parts build of `generateActivityStrip`: person part, optional
environment part, then the primary prompt text.  Performed before any network
call; a malformed data URL aborts the whole invocation here. -/
def buildPrimaryParts (person : String) (env : Option String) (activity : String) :
    Except String (List RPart) :=
  match createPart person with
  | .error e => .error e
  | .ok p =>
    match env with
    | some envUrl =>
      match createPart envUrl with
      | .error e => .error e
      | .ok pe => .ok [p, pe, ⟨none, some (primaryPrompt activity true)⟩]
    | none => .ok [p, ⟨none, some (primaryPrompt activity false)⟩]

/-- The Tier-2 parts build: person image only plus the fallback prompt. -/
def buildFallbackParts (person : String) (activity : String) :
    Except String (List RPart) :=
  match createPart person with
  | .error e => .error e
  | .ok p => .ok [p, ⟨none, some (getFallbackPrompt activity)⟩]

/-! ## The two-tier orchestration (second service copy) -/

/-- One tier as observed from inside the `try` block: the retrying client
followed by response classification; a thrown error surfaces as its message. -/
def tierRun (oracle : Oracle) : Except String String :=
  match (callGeminiWithRetry oracle).result with
  | .ok r => processGeminiResponseV2 r
  | .error m => .error m

/-- The fallback trigger of the second service copy:
`errorMessage.includes("The AI model responded with text instead of an image")`. -/
def isNoImageError (msg : String) : Bool :=
  containsSub msg "The AI model responded with text instead of an image"

/-- Which prompt tiers were attempted, in order. -/
inductive PromptTier where
  | primary
  | fallback
  deriving Repr, DecidableEq

/-- Observable trace of one `generateActivityStrip` invocation: final outcome,
tiers attempted, and the number of network attempts per tier. -/
structure StripTrace where
  result : Except String String
  tiers : List PromptTier
  tier1Calls : Nat
  tier2Calls : Nat
  deriving Repr, DecidableEq

/-- Message thrown when the Tier-2 attempt also fails. -/
def bothFailedMessage (lastError : String) : String :=
  "The AI model failed with both original and fallback prompts. Last error: " ++ lastError

/-- Message thrown when Tier 1 fails for a cause other than no-image. -/
def detailsMessage (msg : String) : String :=
  "The AI model failed to generate an image. Details: " ++ msg

/-- `generateActivityStrip` of the second service copy.  `o1`/`o2` are the
network outcomes for the Tier-1 and Tier-2 call families. -/
def generateActivityStrip (o1 o2 : Oracle) (personImageDataUrl activity : String)
    (environmentImageDataUrl : Option String) : StripTrace :=
  match buildPrimaryParts personImageDataUrl environmentImageDataUrl activity with
  | .error e => ⟨.error e, [], 0, 0⟩
  | .ok _ =>
    let n1 := (callGeminiWithRetry o1).attempts
    match tierRun o1 with
    | .ok url => ⟨.ok url, [.primary], n1, 0⟩
    | .error msg =>
      if isNoImageError msg then
        match buildFallbackParts personImageDataUrl activity with
        | .error e2 => ⟨.error (bothFailedMessage e2), [.primary, .fallback], n1, 0⟩
        | .ok _ =>
          let n2 := (callGeminiWithRetry o2).attempts
          match tierRun o2 with
          | .ok url => ⟨.ok url, [.primary, .fallback], n1, n2⟩
          | .error m2 => ⟨.error (bothFailedMessage m2), [.primary, .fallback], n1, n2⟩
      else
        ⟨.error (detailsMessage msg), [.primary], n1, 0⟩

/-! ## Concrete data for witnesses and counterexamples -/

/-- A small concrete quest used by witness theorems. -/
def sampleQuest : Quest :=
  { quest_id := "q1", title := "Tea", description := "Make a cup of tea",
    icf_codes := [], category := "Nuttig", difficulty := "Low",
    cooldown_minutes := 120, tags := ["morning", "anytime"] }

/-- A second concrete quest, with zero cooldown and an evening tag. -/
def sampleQuest2 : Quest :=
  { quest_id := "q2", title := "Walk", description := "Take a short walk",
    icf_codes := [], category := "Nuttig", difficulty := "Low",
    cooldown_minutes := 0, tags := ["evening"] }

/-- A concrete ledger: `q1` was completed at t = 100. -/
def sampleLedger : Ledger := fun s => if s = "q1" then some 100 else none

/-- A concrete well-formed data URL. -/
def samplePersonUrl : String := "data:image/png;base64,AAAA"

/-- A response carrying an inline image. -/
def okImageResponse : GenResponse :=
  ⟨[⟨none, some ⟨[⟨some ⟨"image/png", "AAA"⟩, none⟩]⟩⟩], none⟩

/-- A text-only response (no inline image anywhere). -/
def textOnlyResponse (t : String) : GenResponse :=
  ⟨[⟨some "STOP", some ⟨[⟨none, some t⟩]⟩⟩], some t⟩

/-- A response whose first candidate has a SAFETY finish reason and also an
inline image part. -/
def safetyWithImageResponse : GenResponse :=
  ⟨[⟨some "SAFETY", some ⟨[⟨some ⟨"image/png", "AAA"⟩, none⟩]⟩⟩], none⟩

/-- Oracle: every attempt succeeds with an image response. -/
def oracleOk : Oracle := fun _ => .ok okImageResponse

/-- Oracle: every attempt throws an internal server error. -/
def oracleInternal : Oracle := fun _ => .error "got status 500 INTERNAL"

/-- Oracle: every attempt returns a text-only response. -/
def oracleText : Oracle := fun _ => .ok (textOnlyResponse "RAW1-TIER1")

/-- Oracle: every attempt throws a non-transient error. -/
def oracleBoom : Oracle := fun _ => .error "connection reset RAW2-TIER2"

end PrettigThuis

namespace PrettigThuis

/-! ## Shared helper lemmas -/

/-- Helper: any quest returned by `getNextQuest` — on either path — passed the
cooldown test. -/
theorem mem_getNextQuest_not_cooldown (catalog : List Quest) (ledger : Ledger)
    (now : Int) (hour : Nat) (randIndex : Nat) (q : Quest)
    (h : getNextQuest catalog ledger now hour randIndex = some q) :
    isOnCooldown ledger now q = false := by
  unfold getNextQuest at h
  by_cases hlen : (availableQuests catalog ledger now hour).length = 0
  · simp only [hlen, if_pos rfl] at h
    have := List.find?_some h
    simpa using this
  · simp only [hlen, if_neg hlen] at h
    have hmem : q ∈ availableQuests catalog ledger now hour := List.get?_mem h
    have := (List.mem_filter.mp hmem).2
    simp only [Bool.and_eq_true, Bool.not_eq_true'] at this
    exact this.2

/-- Helper: membership in the filtered `availableQuests` list, unfolded. -/
theorem mem_availableQuests (catalog : List Quest) (ledger : Ledger) (now : Int)
    (hour : Nat) (q : Quest) :
    q ∈ availableQuests catalog ledger now hour ↔
      q ∈ catalog ∧
      (q.tags.contains (getPartOfDay hour) || q.tags.contains "anytime") = true ∧
      isOnCooldown ledger now q = false := by
  unfold availableQuests
  rw [List.mem_filter]
  simp [Bool.and_eq_true, Bool.not_eq_true', and_assoc]

end PrettigThuis

namespace PrettigThuis

/-! ## Claim theorems -/

/-- Claim C10: `getPartOfDay` is total on the 24 wall-clock hours and maps
hours 5–11 to morning, 12–16 to midday, 17–20 to afternoon, and all remaining
hours (0–4 and 21–23) to evening; every hour yields exactly one daypart. -/
theorem getPartOfDay_partitions (h : Nat) (hlt : h < 24) :
    (5 ≤ h ∧ h ≤ 11 → getPartOfDay h = "morning") ∧
    (12 ≤ h ∧ h ≤ 16 → getPartOfDay h = "midday") ∧
    (17 ≤ h ∧ h ≤ 20 → getPartOfDay h = "afternoon") ∧
    ((h ≤ 4 ∨ 21 ≤ h) → getPartOfDay h = "evening") ∧
    (getPartOfDay h = "morning" ∨ getPartOfDay h = "midday" ∨
      getPartOfDay h = "afternoon" ∨ getPartOfDay h = "evening") := by
  interval_cases h <;> refine ⟨?_, ?_, ?_, ?_, ?_⟩ <;> simp [getPartOfDay]

/-- Claim C6: `getNextQuest` filters the catalog to quests matching the
daypart (or "anytime") and off cooldown; a non-empty filtered list is indexed
by the random draw (any index below its length can be returned); an empty
filtered list falls back deterministically to the first catalog-order quest
off cooldown, daypart ignored; if every quest is on cooldown the result is
`none`, an informational empty value rather than an error. -/
theorem getNextQuest_selection_spec (catalog : List Quest) (ledger : Ledger)
    (now : Int) (hour : Nat) (randIndex : Nat) :
    (∀ q, q ∈ availableQuests catalog ledger now hour ↔
      q ∈ catalog ∧
      (q.tags.contains (getPartOfDay hour) || q.tags.contains "anytime") = true ∧
      isOnCooldown ledger now q = false) ∧
    (∀ h : randIndex < (availableQuests catalog ledger now hour).length,
      getNextQuest catalog ledger now hour randIndex =
        some ((availableQuests catalog ledger now hour).get ⟨randIndex, h⟩)) ∧
    (availableQuests catalog ledger now hour = [] →
      getNextQuest catalog ledger now hour randIndex =
        catalog.find? (fun q => !(isOnCooldown ledger now q))) ∧
    ((∀ q ∈ catalog, isOnCooldown ledger now q = true) →
      getNextQuest catalog ledger now hour randIndex = none) := by
  refine ⟨fun q => mem_availableQuests catalog ledger now hour q, ?_, ?_, ?_⟩
  · intro h
    have hne : ¬(availableQuests catalog ledger now hour).length = 0 := by omega
    simp only [getNextQuest, if_neg hne]
    exact List.get?_eq_get h
  · intro hempty
    simp [getNextQuest, hempty]
  · intro hall
    have hempty : availableQuests catalog ledger now hour = [] := by
      unfold availableQuests
      rw [List.filter_eq_nil_iff]
      intro q hq
      simp [hall q hq]
    have hfind : catalog.find? (fun q => !(isOnCooldown ledger now q)) = none := by
      rw [List.find?_eq_none]
      intro q hq
      simp [hall q hq]
    simp [getNextQuest, hempty, hfind]

/-- Witness for C6: on a concrete catalog where the daypart filter is empty,
the relaxed catalog-order fallback is returned. -/
theorem getNextQuest_selection_spec_witness :
    getNextQuest [sampleQuest, sampleQuest2] sampleLedger 200 9 0 =
      List.find? (fun q => !(isOnCooldown sampleLedger 200 q))
        [sampleQuest, sampleQuest2] :=
  (getNextQuest_selection_spec [sampleQuest, sampleQuest2] sampleLedger
    200 9 0).2.2.1 (by decide)

/-- Claim C7: a quest returned by `getNextQuest` on either path is never on
cooldown: the cooldown constraint is never relaxed. -/
theorem getNextQuest_cooldown_invariant (catalog : List Quest) (ledger : Ledger)
    (now : Int) (hour : Nat) (randIndex : Nat) (q : Quest)
    (h : getNextQuest catalog ledger now hour randIndex = some q) :
    isOnCooldown ledger now q = false ∧
    (ledger q.quest_id).getD 0 + (q.cooldown_minutes : Int) * 60000 ≤ now := by
  have hc := mem_getNextQuest_not_cooldown catalog ledger now hour randIndex q h
  refine ⟨hc, ?_⟩
  unfold isOnCooldown at hc
  simp only [decide_eq_false_iff_not, not_lt] at hc
  exact hc

/-- Witness for C7: the concrete relaxed-path result of the C6 witness
scenario is off cooldown. -/
theorem getNextQuest_cooldown_invariant_witness :
    isOnCooldown sampleLedger 200 sampleQuest2 = false ∧
    (sampleLedger sampleQuest2.quest_id).getD 0 +
      (sampleQuest2.cooldown_minutes : Int) * 60000 ≤ 200 :=
  getNextQuest_cooldown_invariant [sampleQuest, sampleQuest2] sampleLedger
    200 9 0 sampleQuest2 (by decide)

/-- Claim C8: with a last completion recorded at `T`, the quest is on cooldown
one millisecond before `T + cooldownMinutes * 60000` elapses (and is then
never returned by `getNextQuest`), and off cooldown one millisecond after. -/
theorem cooldown_boundary (q : Quest) (ledger : Ledger) (T : Int)
    (hT : ledger q.quest_id = some T) :
    isOnCooldown ledger (T + (q.cooldown_minutes : Int) * 60000 - 1) q = true ∧
    isOnCooldown ledger (T + (q.cooldown_minutes : Int) * 60000 + 1) q = false ∧
    ∀ catalog hour randIndex,
      getNextQuest catalog ledger (T + (q.cooldown_minutes : Int) * 60000 - 1)
        hour randIndex ≠ some q := by
  refine ⟨?_, ?_, ?_⟩
  · simp only [isOnCooldown, hT, Option.getD_some, decide_eq_true_eq]
    omega
  · simp only [isOnCooldown, hT, Option.getD_some, decide_eq_false_iff_not, not_lt]
    omega
  · intro catalog hour randIndex hsome
    have hc := mem_getNextQuest_not_cooldown catalog ledger
      (T + (q.cooldown_minutes : Int) * 60000 - 1) hour randIndex q hsome
    simp only [isOnCooldown, hT, Option.getD_some, decide_eq_false_iff_not,
      not_lt] at hc
    omega

/-- Witness for C8 on the sample quest completed at T = 100. -/
theorem cooldown_boundary_witness :
    isOnCooldown sampleLedger
      (100 + (sampleQuest.cooldown_minutes : Int) * 60000 - 1) sampleQuest = true ∧
    isOnCooldown sampleLedger
      (100 + (sampleQuest.cooldown_minutes : Int) * 60000 + 1) sampleQuest = false ∧
    ∀ catalog hour randIndex,
      getNextQuest catalog sampleLedger
        (100 + (sampleQuest.cooldown_minutes : Int) * 60000 - 1) hour randIndex ≠
        some sampleQuest :=
  cooldown_boundary sampleQuest sampleLedger 100 (by decide)

/-- Claim C9: when no ledger timestamp lies in the future, a quest with zero
cooldown minutes is never excluded by the cooldown test, regardless of its
completion history, and so always passes into `availableQuests` whenever its
tags match. -/
theorem zero_cooldown_eligible (ledger : Ledger) (now : Int) (q : Quest)
    (hpast : ∀ s t, ledger s = some t → t ≤ now)
    (hnow : 0 ≤ now) (hc : q.cooldown_minutes = 0) :
    isOnCooldown ledger now q = false ∧
    ∀ catalog hour, q ∈ catalog →
      (q.tags.contains (getPartOfDay hour) || q.tags.contains "anytime") = true →
      q ∈ availableQuests catalog ledger now hour := by
  have hoff : isOnCooldown ledger now q = false := by
    unfold isOnCooldown
    rcases hl : ledger q.quest_id with _ | t
    · simp only [hl, Option.getD_none, hc, Nat.cast_zero, zero_mul, add_zero,
        decide_eq_false_iff_not, not_lt]
      exact hnow
    · have ht := hpast _ _ hl
      simp only [hl, Option.getD_some, hc, Nat.cast_zero, zero_mul, add_zero,
        decide_eq_false_iff_not, not_lt]
      exact ht
  refine ⟨hoff, ?_⟩
  intro catalog hour hmem htags
  exact (mem_availableQuests catalog ledger now hour q).mpr ⟨hmem, htags, hoff⟩

/-- Witness for C9 on the zero-cooldown sample quest. -/
theorem zero_cooldown_eligible_witness :
    isOnCooldown sampleLedger 200 sampleQuest2 = false ∧
    ∀ catalog hour, sampleQuest2 ∈ catalog →
      (sampleQuest2.tags.contains (getPartOfDay hour) ||
        sampleQuest2.tags.contains "anytime") = true →
      sampleQuest2 ∈ availableQuests catalog sampleLedger 200 hour :=
  zero_cooldown_eligible sampleLedger 200 sampleQuest2
    (by
      intro s t h
      unfold sampleLedger at h
      by_cases hs : s = "q1"
      · rw [if_pos hs] at h
        cases h
        omega
      · rw [if_neg hs] at h
        cases h)
    (by decide) (by decide)

/-- Witness for C10 at a concrete hour. -/
theorem getPartOfDay_partitions_witness :
    (5 ≤ 9 ∧ 9 ≤ 11 → getPartOfDay 9 = "morning") ∧
    (12 ≤ 9 ∧ 9 ≤ 16 → getPartOfDay 9 = "midday") ∧
    (17 ≤ 9 ∧ 9 ≤ 20 → getPartOfDay 9 = "afternoon") ∧
    ((9 ≤ 4 ∨ 21 ≤ 9) → getPartOfDay 9 = "evening") ∧
    (getPartOfDay 9 = "morning" ∨ getPartOfDay 9 = "midday" ∨
      getPartOfDay 9 = "afternoon" ∨ getPartOfDay 9 = "evening") :=
  getPartOfDay_partitions 9 (by decide)

/-! ## Retry client lemmas -/

/-- Helper: a successful attempt stops the retry loop at once. -/
theorem retryFrom_ok (oracle : Oracle) (a f : Nat) (r : GenResponse)
    (h : oracle a = .ok r) :
    retryFrom oracle a (f + 1) = ⟨.ok r, 1, []⟩ := by
  simp [retryFrom, h]

/-- Helper: a non-transient failure stops the retry loop at once. -/
theorem retryFrom_stop_notTransient (oracle : Oracle) (a f : Nat) (m : String)
    (h : oracle a = .error m) (h1 : isInternalError m = false) :
    retryFrom oracle a (f + 1) = ⟨.error m, 1, []⟩ := by
  simp [retryFrom, h, h1]

/-- Helper: a failure on the last allowed attempt stops the retry loop. -/
theorem retryFrom_stop_last (oracle : Oracle) (a f : Nat) (m : String)
    (h : oracle a = .error m) (h2 : ¬a < maxRetries) :
    retryFrom oracle a (f + 1) = ⟨.error m, 1, []⟩ := by
  simp [retryFrom, h, h2]

/-- Helper: a transient failure before the last attempt delays and retries. -/
theorem retryFrom_step (oracle : Oracle) (a f : Nat) (m : String)
    (h : oracle a = .error m) (h1 : isInternalError m = true)
    (h2 : a < maxRetries) :
    retryFrom oracle a (f + 1) =
      ⟨(retryFrom oracle (a + 1) f).result,
        (retryFrom oracle (a + 1) f).attempts + 1,
        initialDelay * 2 ^ (a - 1) :: (retryFrom oracle (a + 1) f).delays⟩ := by
  simp [retryFrom, h, h1, h2]

/-- Claim C2: the client performs between 1 and 3 attempts; every non-final
attempt failed with an error whose message matches the internal/5xx pattern;
the final outcome is exactly the outcome of the last attempt performed, so
failures propagate unwrapped; a propagated failure is either non-transient or
happened on the third attempt; and the waits before attempts 2 and 3 follow
the `1000 * 2 ^ (k - 1)` schedule (1000 ms, then 2000 ms). -/
theorem callGeminiWithRetry_spec (oracle : Oracle) :
    1 ≤ (callGeminiWithRetry oracle).attempts ∧
    (callGeminiWithRetry oracle).attempts ≤ maxRetries ∧
    (callGeminiWithRetry oracle).result = oracle (callGeminiWithRetry oracle).attempts ∧
    (∀ k, 1 ≤ k → k < (callGeminiWithRetry oracle).attempts →
      ∃ m, oracle k = .error m ∧ isInternalError m = true) ∧
    (∀ m, (callGeminiWithRetry oracle).result = .error m →
      isInternalError m = false ∨ (callGeminiWithRetry oracle).attempts = maxRetries) ∧
    (callGeminiWithRetry oracle).delays =
      (List.range ((callGeminiWithRetry oracle).attempts - 1)).map
        (fun i => initialDelay * 2 ^ i) := by
  have hmax : maxRetries = 3 := rfl
  have hunfold : callGeminiWithRetry oracle = retryFrom oracle 1 3 := rfl
  rcases h1 : oracle 1 with m1 | r1
  · by_cases hi1 : isInternalError m1 = true
    · have e1 := retryFrom_step oracle 1 2 m1 h1 hi1 (by decide)
      rcases h2 : oracle 2 with m2 | r2
      · by_cases hi2 : isInternalError m2 = true
        · have e2 := retryFrom_step oracle 2 1 m2 h2 hi2 (by decide)
          rcases h3 : oracle 3 with m3 | r3
          · have e3 := retryFrom_stop_last oracle 3 0 m3 h3 (by decide)
            norm_num at e1 e2 e3
            have ht : callGeminiWithRetry oracle = ⟨.error m3, 3, [1000, 2000]⟩ := by
              rw [hunfold, e1, e2, e3]
              simp [initialDelay]
            have ha : (callGeminiWithRetry oracle).attempts = 3 := by rw [ht]
            have hr : (callGeminiWithRetry oracle).result = .error m3 := by rw [ht]
            have hd : (callGeminiWithRetry oracle).delays = [1000, 2000] := by rw [ht]
            refine ⟨by omega, by omega, by rw [hr, ha, h3], ?_, ?_, ?_⟩
            · intro k hk1 hk2
              rw [ha] at hk2
              interval_cases k
              · exact ⟨m1, h1, hi1⟩
              · exact ⟨m2, h2, hi2⟩
            · intro m _
              right
              omega
            · rw [hd, ha]
              decide
          · have e3 := retryFrom_ok oracle 3 0 r3 h3
            norm_num at e1 e2 e3
            have ht : callGeminiWithRetry oracle = ⟨.ok r3, 3, [1000, 2000]⟩ := by
              rw [hunfold, e1, e2, e3]
              simp [initialDelay]
            have ha : (callGeminiWithRetry oracle).attempts = 3 := by rw [ht]
            have hr : (callGeminiWithRetry oracle).result = .ok r3 := by rw [ht]
            have hd : (callGeminiWithRetry oracle).delays = [1000, 2000] := by rw [ht]
            refine ⟨by omega, by omega, by rw [hr, ha, h3], ?_, ?_, ?_⟩
            · intro k hk1 hk2
              rw [ha] at hk2
              interval_cases k
              · exact ⟨m1, h1, hi1⟩
              · exact ⟨m2, h2, hi2⟩
            · intro m hm
              rw [hr] at hm
              cases hm
            · rw [hd, ha]
              decide
        · have hi2f : isInternalError m2 = false := by simpa using hi2
          have e2 := retryFrom_stop_notTransient oracle 2 1 m2 h2 hi2f
          norm_num at e1 e2
          have ht : callGeminiWithRetry oracle = ⟨.error m2, 2, [1000]⟩ := by
            rw [hunfold, e1, e2]
            simp [initialDelay]
          have ha : (callGeminiWithRetry oracle).attempts = 2 := by rw [ht]
          have hr : (callGeminiWithRetry oracle).result = .error m2 := by rw [ht]
          have hd : (callGeminiWithRetry oracle).delays = [1000] := by rw [ht]
          refine ⟨by omega, by omega, by rw [hr, ha, h2], ?_, ?_, ?_⟩
          · intro k hk1 hk2
            rw [ha] at hk2
            interval_cases k
            exact ⟨m1, h1, hi1⟩
          · intro m hm
            rw [hr] at hm
            cases hm
            exact Or.inl hi2f
          · rw [hd, ha]
            decide
      · have e2 := retryFrom_ok oracle 2 1 r2 h2
        norm_num at e1 e2
        have ht : callGeminiWithRetry oracle = ⟨.ok r2, 2, [1000]⟩ := by
          rw [hunfold, e1, e2]
          simp [initialDelay]
        have ha : (callGeminiWithRetry oracle).attempts = 2 := by rw [ht]
        have hr : (callGeminiWithRetry oracle).result = .ok r2 := by rw [ht]
        have hd : (callGeminiWithRetry oracle).delays = [1000] := by rw [ht]
        refine ⟨by omega, by omega, by rw [hr, ha, h2], ?_, ?_, ?_⟩
        · intro k hk1 hk2
          rw [ha] at hk2
          interval_cases k
          exact ⟨m1, h1, hi1⟩
        · intro m hm
          rw [hr] at hm
          cases hm
        · rw [hd, ha]
          decide
    · have hi1f : isInternalError m1 = false := by simpa using hi1
      have e1 := retryFrom_stop_notTransient oracle 1 2 m1 h1 hi1f
      norm_num at e1
      have ht : callGeminiWithRetry oracle = ⟨.error m1, 1, []⟩ := by
        rw [hunfold, e1]
      have ha : (callGeminiWithRetry oracle).attempts = 1 := by rw [ht]
      have hr : (callGeminiWithRetry oracle).result = .error m1 := by rw [ht]
      have hd : (callGeminiWithRetry oracle).delays = [] := by rw [ht]
      refine ⟨by omega, by omega, by rw [hr, ha, h1], ?_, ?_, ?_⟩
      · intro k hk1 hk2
        omega
      · intro m hm
        rw [hr] at hm
        cases hm
        exact Or.inl hi1f
      · rw [hd, ha]
        decide
  · have e1 := retryFrom_ok oracle 1 2 r1 h1
    norm_num at e1
    have ht : callGeminiWithRetry oracle = ⟨.ok r1, 1, []⟩ := by
      rw [hunfold, e1]
    have ha : (callGeminiWithRetry oracle).attempts = 1 := by rw [ht]
    have hr : (callGeminiWithRetry oracle).result = .ok r1 := by rw [ht]
    have hd : (callGeminiWithRetry oracle).delays = [] := by rw [ht]
    refine ⟨by omega, by omega, by rw [hr, ha, h1], ?_, ?_, ?_⟩
    · intro k hk1 hk2
      omega
    · intro m hm
      rw [hr] at hm
      cases hm
    · rw [hd, ha]
      decide

/-- Witness for C2: the always-internal-error oracle is retried to exhaustion,
with waits of 1000 ms and 2000 ms, and the original error propagates. -/
theorem callGeminiWithRetry_spec_witness :
    (1 ≤ (callGeminiWithRetry oracleInternal).attempts ∧
      (callGeminiWithRetry oracleInternal).attempts ≤ maxRetries) ∧
    (callGeminiWithRetry oracleInternal).result =
      oracleInternal (callGeminiWithRetry oracleInternal).attempts ∧
    (∃ m, oracleInternal 1 = .error m ∧ isInternalError m = true) ∧
    (callGeminiWithRetry oracleInternal).delays =
      (List.range ((callGeminiWithRetry oracleInternal).attempts - 1)).map
        (fun i => initialDelay * 2 ^ i) := by
  have h := callGeminiWithRetry_spec oracleInternal
  exact ⟨⟨h.1, h.2.1⟩, h.2.2.1,
    h.2.2.2.1 1 (by decide) (by decide), h.2.2.2.2.2⟩

/-! ## Prompt building lemmas -/

/-- Helper: a successful literal strip reconstructs the original list. -/
theorem stripLit_eq_append :
    ∀ (p cs rest : List Char), stripLit p cs = some rest → cs = p ++ rest
  | [], cs, rest, h => by
    simp only [stripLit, Option.some.injEq] at h
    simp [h]
  | _ :: _, [], rest, h => by
    simp [stripLit] at h
  | p :: ps, c :: cs, rest, h => by
    simp only [stripLit] at h
    by_cases hc : c = p
    · rw [if_pos hc] at h
      have := stripLit_eq_append ps cs rest h
      simp [hc, this]
    · rw [if_neg hc] at h
      cases h

/-- Helper: a successful parse reconstructs the original data URL, so every
value the regex accepts has the `data:<mime>;base64,<payload>` shape. -/
theorem parseDataUrl_shape (s mime payload : String)
    (h : parseDataUrl s = some (mime, payload)) :
    s = "data:" ++ mime ++ ";base64," ++ payload := by
  unfold parseDataUrl at h
  rcases h1 : stripLit "data:image/".toList s.toList with _ | rest
  · rw [h1] at h
    cases h
  · rw [h1] at h
    simp only at h
    by_cases hw : rest.takeWhile isWordChar = []
    · rw [if_pos hw] at h
      cases h
    · rw [if_neg hw] at h
      rcases h2 : stripLit ";base64,".toList (rest.dropWhile isWordChar) with _ | payload2
      · rw [h2] at h
        cases h
      · rw [h2] at h
        dsimp only at h
        by_cases hl : payload2.any isLineTerminator
        · rw [if_pos hl] at h
          cases h
        · rw [if_neg hl] at h
          simp only [Option.some.injEq, Prod.mk.injEq] at h
          obtain ⟨hm, hp⟩ := h
          have e1 : s.data = "data:image/".toList ++ rest := stripLit_eq_append _ _ _ h1
          have e2 := stripLit_eq_append _ _ _ h2
          have hfinal : s.data =
              "data:image/".toList ++
                (List.takeWhile isWordChar rest ++ (";base64,".toList ++ payload2)) := by
            calc s.data = "data:image/".toList ++ rest := e1
              _ = "data:image/".toList ++
                    (List.takeWhile isWordChar rest ++ List.dropWhile isWordChar rest) := by
                  rw [List.takeWhile_append_dropWhile]
              _ = "data:image/".toList ++
                    (List.takeWhile isWordChar rest ++ (";base64,".toList ++ payload2)) := by
                  rw [e2]
          apply String.ext
          rw [hfinal, ← hm, ← hp]
          have hsplit : "data:image/".toList = "data:".data ++ "image/".toList := rfl
          have hsem : ";base64,".toList = ";base64,".data := rfl
          simp only [String.data_append, hsplit, hsem, List.append_assoc]

/-- Helper: when the primary build succeeded, the person data URL parses, and
the Tier-2 (fallback) build therefore also succeeds. -/
theorem buildFallbackParts_ok_of_buildPrimary (person : String) (env : Option String)
    (activity : String) (parts : List RPart)
    (h : buildPrimaryParts person env activity = .ok parts) :
    ∃ p, createPart person = .ok p ∧
      buildFallbackParts person activity =
        .ok [p, ⟨none, some (getFallbackPrompt activity)⟩] := by
  rcases hc : createPart person with e | p
  · simp only [buildPrimaryParts, hc] at h
    exact Except.noConfusion h
  · exact ⟨p, rfl, by simp only [buildFallbackParts, hc]⟩

/-! ## Classifier claims -/

/-- Claim C3 (amended): the typed classifier of the first service copy applies
the three rules in strict order — a SAFETY finish reason yields the safety
failure with the inappropriate-description user message even when an inline
image part is present; otherwise an inline image payload yields Success with
mime and bytes used verbatim; otherwise a no-image failure carrying the
response text or the placeholder.  The second classifier copy omits rule 1
and applies only rules 2 and 3. -/
theorem processGeminiResponse_classification (r : GenResponse) :
    (finishReason0 r = some "SAFETY" →
      processGeminiResponse r =
        .error ⟨"Generation failed due to safety reasons.", safetyUserMessage⟩) ∧
    (finishReason0 r ≠ some "SAFETY" →
      (∀ d, findImagePart r = some d →
        processGeminiResponse r = .ok ("data:" ++ d.mimeType ++ ";base64," ++ d.data)) ∧
      (findImagePart r = none →
        processGeminiResponse r = .error ⟨noImageRawMessage r.text, noImageUserMessage⟩)) ∧
    (∀ d, findImagePart r = some d →
      processGeminiResponseV2 r = .ok ("data:" ++ d.mimeType ++ ";base64," ++ d.data)) ∧
    (findImagePart r = none →
      processGeminiResponseV2 r = .error (noImageRawMessage r.text)) := by
  refine ⟨fun hs => ?_, fun hs => ⟨fun d hd => ?_, fun hn => ?_⟩,
    fun d hd => ?_, fun hn => ?_⟩
  · simp [processGeminiResponse, hs]
  · simp [processGeminiResponse, hs, hd]
  · simp [processGeminiResponse, hs, hn]
  · simp [processGeminiResponseV2, hd]
  · simp [processGeminiResponseV2, hn]

/-- Witness for C3 (amended), on concrete responses: rule 1 fires in the first
copy even with an image present; rule 2 fires in the second copy. -/
theorem processGeminiResponse_classification_witness :
    processGeminiResponse safetyWithImageResponse =
      .error ⟨"Generation failed due to safety reasons.", safetyUserMessage⟩ ∧
    processGeminiResponseV2 okImageResponse = .ok "data:image/png;base64,AAA" := by
  refine ⟨(processGeminiResponse_classification safetyWithImageResponse).1 (by decide), ?_⟩
  exact (processGeminiResponse_classification okImageResponse).2.2.1
    ⟨"image/png", "AAA"⟩ (by decide)

/-- Counterexample for C3 as stated: on a response whose first candidate has a
SAFETY finish reason and also carries an inline image part, the second
classifier copy returns Success rather than the safety failure (it has no
rule 1); the first copy does apply rule 1 on the same response. -/
theorem classification_strict_order_counterexample :
    processGeminiResponseV2 safetyWithImageResponse = .ok "data:image/png;base64,AAA" ∧
    processGeminiResponse safetyWithImageResponse =
      .error ⟨"Generation failed due to safety reasons.", safetyUserMessage⟩ :=
  ⟨rfl, rfl⟩

/-! ## Orchestrator claims -/

/-- Helper: exhaustive case analysis of one `generateActivityStrip` run — the
five terminal shapes of the two-tier orchestration. -/
theorem generateActivityStrip_cases (o1 o2 : Oracle) (person activity : String)
    (env : Option String) :
    (∃ e, buildPrimaryParts person env activity = .error e ∧
      generateActivityStrip o1 o2 person activity env = ⟨.error e, [], 0, 0⟩) ∨
    (∃ parts, buildPrimaryParts person env activity = .ok parts ∧
      ((∃ url, tierRun o1 = .ok url ∧
        generateActivityStrip o1 o2 person activity env =
          ⟨.ok url, [.primary], (callGeminiWithRetry o1).attempts, 0⟩) ∨
      (∃ m, tierRun o1 = .error m ∧ isNoImageError m = false ∧
        generateActivityStrip o1 o2 person activity env =
          ⟨.error (detailsMessage m), [.primary], (callGeminiWithRetry o1).attempts, 0⟩) ∨
      (∃ m, tierRun o1 = .error m ∧ isNoImageError m = true ∧
        ((∃ url, tierRun o2 = .ok url ∧
          generateActivityStrip o1 o2 person activity env =
            ⟨.ok url, [.primary, .fallback], (callGeminiWithRetry o1).attempts,
              (callGeminiWithRetry o2).attempts⟩) ∨
        (∃ m2, tierRun o2 = .error m2 ∧
          generateActivityStrip o1 o2 person activity env =
            ⟨.error (bothFailedMessage m2), [.primary, .fallback],
              (callGeminiWithRetry o1).attempts, (callGeminiWithRetry o2).attempts⟩))))) := by
  rcases hb : buildPrimaryParts person env activity with e | parts
  · exact Or.inl ⟨e, rfl, by simp [generateActivityStrip, hb]⟩
  · refine Or.inr ⟨parts, rfl, ?_⟩
    rcases h1 : tierRun o1 with m | url
    · by_cases hni : isNoImageError m = true
      · obtain ⟨p, hcp, hfb⟩ :=
          buildFallbackParts_ok_of_buildPrimary person env activity parts hb
        refine Or.inr (Or.inr ⟨m, rfl, hni, ?_⟩)
        rcases h2 : tierRun o2 with m2 | url2
        · exact Or.inr ⟨m2, rfl, by simp [generateActivityStrip, hb, h1, hni, hfb, h2]⟩
        · exact Or.inl ⟨url2, rfl, by simp [generateActivityStrip, hb, h1, hni, hfb, h2]⟩
      · have hnif : isNoImageError m = false := by simpa using hni
        exact Or.inr (Or.inl ⟨m, rfl, hnif,
          by simp [generateActivityStrip, hb, h1, hnif]⟩)
    · exact Or.inl ⟨url, rfl, by simp [generateActivityStrip, hb, h1]⟩

/-- Claim C1: per invocation the fallback tier runs at most once; it runs
exactly when the primary build succeeded and the Tier-1 outcome is an error
matching the no-image marker; any Tier-1 error not matching the marker
(safety text, malformed input, exhausted transport error) is terminal, with
the details-wrapped diagnostic and no Tier-2 attempt. -/
theorem generateActivityStrip_fallback_policy (o1 o2 : Oracle)
    (person activity : String) (env : Option String) :
    (generateActivityStrip o1 o2 person activity env).tiers.count .fallback ≤ 1 ∧
    (PromptTier.fallback ∈ (generateActivityStrip o1 o2 person activity env).tiers ↔
      ((∃ parts, buildPrimaryParts person env activity = .ok parts) ∧
        ∃ m, tierRun o1 = .error m ∧ isNoImageError m = true)) ∧
    (∀ parts m, buildPrimaryParts person env activity = .ok parts →
      tierRun o1 = .error m → isNoImageError m = false →
      generateActivityStrip o1 o2 person activity env =
        ⟨.error (detailsMessage m), [.primary], (callGeminiWithRetry o1).attempts, 0⟩) := by
  rcases generateActivityStrip_cases o1 o2 person activity env with
    ⟨e, hb, hg⟩ | ⟨parts, hb, ⟨url, h1, hg⟩ | ⟨m, h1, hni, hg⟩ |
      ⟨m, h1, hni, ⟨url, h2, hg⟩ | ⟨m2, h2, hg⟩⟩⟩
  · refine ⟨by simp [hg], by simp [hg, hb], ?_⟩
    intro parts m hbp
    rw [hb] at hbp
    exact absurd hbp (by simp)
  · refine ⟨by simp [hg], ?_, ?_⟩
    · rw [hg]
      simp only [StripTrace.tiers]
      constructor
      · intro hmem
        simp at hmem
      · rintro ⟨-, m, hm, -⟩
        rw [h1] at hm
        exact absurd hm (by simp)
    · intro parts2 m hbp h1m
      rw [h1] at h1m
      exact absurd h1m (by simp)
  · refine ⟨by simp [hg], ?_, ?_⟩
    · rw [hg]
      simp only [StripTrace.tiers]
      constructor
      · intro hmem
        simp at hmem
      · rintro ⟨-, m2, hm, hm2⟩
        rw [h1] at hm
        cases hm
        rw [hni] at hm2
        cases hm2
    · intro parts2 m2 hbp h1m h1f
      rw [h1] at h1m
      cases h1m
      rw [hg]
  · refine ⟨by simp [hg], ?_, ?_⟩
    · rw [hg]
      simp only [StripTrace.tiers]
      constructor
      · intro _
        exact ⟨⟨parts, hb⟩, m, h1, hni⟩
      · intro _
        simp
    · intro parts2 m2 hbp h1m h1f
      rw [h1] at h1m
      cases h1m
      rw [hni] at h1f
      cases h1f
  · refine ⟨by simp [hg], ?_, ?_⟩
    · rw [hg]
      simp only [StripTrace.tiers]
      constructor
      · intro _
        exact ⟨⟨parts, hb⟩, m, h1, hni⟩
      · intro _
        simp
    · intro parts2 m2 hbp h1m h1f
      rw [h1] at h1m
      cases h1m
      rw [hni] at h1f
      cases h1f

/-- Witness for C1: with a text-only Tier-1 outcome, the fallback tier fires
(once); the characterization instantiates at the concrete trace. -/
theorem generateActivityStrip_fallback_policy_witness :
    (generateActivityStrip oracleText oracleOk samplePersonUrl
      "tea" none).tiers.count .fallback ≤ 1 ∧
    PromptTier.fallback ∈
      (generateActivityStrip oracleText oracleOk samplePersonUrl "tea" none).tiers := by
  have h := generateActivityStrip_fallback_policy oracleText oracleOk
    samplePersonUrl "tea" none
  exact ⟨h.1, h.2.1.mpr ⟨⟨_, rfl⟩,
    noImageRawMessage (some "RAW1-TIER1"), rfl, by decide⟩⟩

/-- Claim C4 (amended): whenever the Tier-2 attempt fails for any reason, the
invocation terminates with the both-prompts-failed diagnostic embedding the
Tier-2 raw message (only); the thrown error is a plain message with no
user-facing text attached. -/
theorem generateActivityStrip_fallback_exhausted (o1 o2 : Oracle)
    (person activity : String) (env : Option String) (parts : List RPart)
    (m1 m2 : String)
    (hb : buildPrimaryParts person env activity = .ok parts)
    (h1 : tierRun o1 = .error m1) (hno : isNoImageError m1 = true)
    (h2 : tierRun o2 = .error m2) :
    (generateActivityStrip o1 o2 person activity env).result =
      .error (bothFailedMessage m2) ∧
    (generateActivityStrip o1 o2 person activity env).tiers =
      [.primary, .fallback] := by
  obtain ⟨p, hcp, hfb⟩ :=
    buildFallbackParts_ok_of_buildPrimary person env activity parts hb
  constructor <;> simp [generateActivityStrip, hb, h1, hno, hfb, h2]

/-- Witness for C4 (amended) on concrete oracles. -/
theorem generateActivityStrip_fallback_exhausted_witness :
    (generateActivityStrip oracleText oracleBoom samplePersonUrl
        "tea" none).result =
      .error (bothFailedMessage "connection reset RAW2-TIER2") ∧
    (generateActivityStrip oracleText oracleBoom samplePersonUrl
        "tea" none).tiers = [.primary, .fallback] :=
  generateActivityStrip_fallback_exhausted oracleText oracleBoom
    samplePersonUrl "tea" none _ _ _ rfl rfl (by decide) rfl

/-- Counterexample for C4 as stated: Tier 1 classifies as no-image with a raw
message mentioning RAW1-TIER1; Tier 2 fails on a transport error.  The
terminal diagnostic embeds only the Tier-2 message — the Tier-1 raw message
does not occur in it — and no connection-hint user message is attached. -/
theorem generateActivityStrip_both_messages_counterexample :
    (generateActivityStrip oracleText oracleBoom samplePersonUrl
        "tea" none).result =
      .error (bothFailedMessage "connection reset RAW2-TIER2") ∧
    containsSub (bothFailedMessage "connection reset RAW2-TIER2") "RAW1-TIER1" = false ∧
    containsSub (bothFailedMessage "connection reset RAW2-TIER2")
      "Controleer uw internetverbinding" = false := by
  refine ⟨rfl, by decide, by decide⟩

/-- Claim C5: an image value the data-URL pattern rejects makes both build
paths fail at once with the malformed-image error and zero network calls (an
empty tier list and zero attempts on both call families); conversely every
accepted value has the `data:<mime>;base64,<payload>` shape, so a value
without that shape is always rejected. -/
theorem malformed_image_fails_fast (o1 o2 : Oracle) (person activity : String)
    (env : Option String) :
    (parseDataUrl person = none →
      generateActivityStrip o1 o2 person activity env =
        ⟨.error "Invalid image data URL format.", [], 0, 0⟩ ∧
      buildFallbackParts person activity = .error "Invalid image data URL format.") ∧
    (∀ e, env = some e → parseDataUrl e = none →
      generateActivityStrip o1 o2 person activity env =
        ⟨.error "Invalid image data URL format.", [], 0, 0⟩) ∧
    (∀ mime payload, parseDataUrl person = some (mime, payload) →
      person = "data:" ++ mime ++ ";base64," ++ payload) := by
  refine ⟨fun hp => ⟨?_, ?_⟩, fun e he hp2 => ?_, fun mime payload hp => ?_⟩
  · simp [generateActivityStrip, buildPrimaryParts, createPart, hp]
  · simp [buildFallbackParts, createPart, hp]
  · subst he
    rcases hp : parseDataUrl person with _ | md
    · simp [generateActivityStrip, buildPrimaryParts, createPart, hp]
    · simp [generateActivityStrip, buildPrimaryParts, createPart, hp, hp2]
  · exact parseDataUrl_shape person mime payload hp

/-- Witness for C5 on a concrete malformed value and a concrete well-formed
value. -/
theorem malformed_image_fails_fast_witness :
    (generateActivityStrip oracleOk oracleOk "not-a-data-url" "tea" none =
        ⟨.error "Invalid image data URL format.", [], 0, 0⟩ ∧
      buildFallbackParts "not-a-data-url" "tea" =
        .error "Invalid image data URL format.") ∧
    samplePersonUrl = "data:" ++ "image/png" ++ ";base64," ++ "AAAA" := by
  refine ⟨(malformed_image_fails_fast oracleOk oracleOk
    "not-a-data-url" "tea" none).1 (by decide), ?_⟩
  exact (malformed_image_fails_fast oracleOk oracleOk samplePersonUrl
    "tea" none).2.2 "image/png" "AAAA" (by decide)

end PrettigThuis
